import Mathlib

/-!
Shallow embedding of `tesseract-rs` (`src/api.rs`), the stateful lifecycle
manager `TesseractAPI` around a native Tesseract engine handle.

The native layer is modelled by an oracle (`NativeOracle`) supplying the
return values of the native calls, and every operation additionally returns
the list of native calls it issued (`NEvent`), so that ordering properties
("`end` before the initializer", "exactly one deallocation after the copy")
are visible.  Lock poisoning of the two mutexes (`config`, `handle`) is part
of the manager state; an operation that `.unwrap()`s a poisoned lock is
modelled as the `panicked` outcome.  Rust release-mode `i32` arithmetic is
modelled by `wrap32` (two's-complement wraparound) and the `as usize` cast by
`usizeOfI32`.
-/

namespace TesseractRs

/-- The error taxonomy of `TesseractError` (crate::error), restricted to the
variants used by the operations embedded here. -/
inductive TesseractError
  | MutexLockError
  | InitError
  | SetVariableError
  | GetVariableError
  | NullPointerError
  | OcrError
  | InvalidDimensions
  | InvalidBytesPerPixel
  | InvalidBytesPerLine
  | InvalidImageData
  deriving DecidableEq, Repr

/-- Result of a public operation: `ok`/`err` mirror `Result<T, TesseractError>`;
`panicked` models a Rust panic (e.g. `.lock().unwrap()` on a poisoned mutex);
`undefinedBehavior` models reading past the end of a native array that lacks
its sentinel terminator. -/
inductive Outcome (α : Type)
  | ok (a : α)
  | err (e : TesseractError)
  | panicked
  | undefinedBehavior
  deriving DecidableEq, Repr

/-- Whether an outcome is `ok`. -/
def Outcome.isOk {α : Type} : Outcome α → Bool
  | .ok _ => true
  | _ => false

/-- Functorial action on the `ok` payload. -/
def Outcome.map {α β : Type} (f : α → β) : Outcome α → Outcome β
  | .ok a => .ok (f a)
  | .err e => .err e
  | .panicked => .panicked
  | .undefinedBehavior => .undefinedBehavior

/-- `TesseractConfiguration` (src/api.rs lines 12-17): the configuration
snapshot.  The `HashMap<String, String>` of variables is modelled as an
association list with unique keys and last-write-wins insertion. -/
structure TesseractConfiguration where
  datapath : String
  language : String
  vars : List (String × String)
  deriving DecidableEq, Repr

/-- Native calls issued by the wrapper, with enough of their arguments and
results recorded to state ordering and replay properties. -/
inductive NEvent
  | endE
  | init3E (datapath language : String) (ok : Bool)
  | init1E (datapath language : String) (oem : Int) (configs : List String) (ok : Bool)
  | init2E (datapath language : String) (oem : Int) (ok : Bool)
  | init4E (datapath language : String) (oem : Int) (configs : List String) (ok : Bool)
  | init5E (dataLen : Nat) (language : String) (oem : Int) (configs : List String) (ok : Bool)
  | setVarE (name value : String) (ok : Bool)
  | setImageE (width height bytesPerPixel bytesPerLine : Int)
  | allWordConfidencesE
  | deleteIntArrayE
  | getInitLanguagesE
  | getLoadedLanguagesE
  | deleteTextArrayE
  | getUnicharE (id : Int)
  deriving DecidableEq, Repr

/-- Return values the native layer hands back to the wrapper.  Arrays are the
memory contents starting at the returned pointer (`none` = null pointer); a
string-pointer array cell that is `none` is a null pointer (the sentinel). -/
structure NativeOracle where
  init3Result : Int
  init1Result : Int
  init2Result : Int
  init4Result : Int
  init5Result : Int
  setVarResult : String → String → Int
  wordConfidences : Option (List Int)
  initLanguages : Option String
  loadedLanguages : Option (List (Option String))
  unichar : Int → Option String

/-- Manager state: the configuration snapshot plus the poisoned-flags of the
two mutexes (the raw handle pointer itself carries no modelled state). -/
structure MState where
  config : TesseractConfiguration
  configPoisoned : Bool
  handlePoisoned : Bool
  deriving DecidableEq, Repr

/-- `HashMap::insert` on the association-list model: overwrite the existing
binding of the key, or append a fresh one. -/
def insertVar : List (String × String) → String → String → List (String × String)
  | [], n, v => [(n, v)]
  | (n0, v0) :: rest, n, v =>
      if n0 = n then (n, v) :: rest else (n0, v0) :: insertVar rest n v

/-- `TesseractAPI::set_variable_internal` (lines 196-205): one native
`TessBaseAPISetVariable` call; result `1` is success, anything else is
`SetVariableError`. -/
def set_variable_internal (oracle : NativeOracle) (name value : String) :
    Outcome Unit × NEvent :=
  if oracle.setVarResult name value = 1 then (.ok (), .setVarE name value true)
  else (.err .SetVariableError, .setVarE name value false)

/-- The variable-replay loop in `TesseractAPI::init` (lines 117-120): apply
each stored pair via `set_variable_internal`, short-circuiting on the first
failure (the Rust loop uses `?`). -/
def replayVariables (oracle : NativeOracle) :
    List (String × String) → Outcome Unit × List NEvent
  | [] => (.ok (), [])
  | (n, v) :: rest =>
      if oracle.setVarResult n v = 1 then
        let r := replayVariables oracle rest
        (r.1, .setVarE n v true :: r.2)
      else (.err .SetVariableError, [.setVarE n v false])

/-- The snapshot update performed by `init` before invoking the native
initializer (lines 96-98): write the new pair, keep the variables. -/
def init_write_config (cfg : TesseractConfiguration) (datapath language : String) :
    TesseractConfiguration :=
  { cfg with datapath := datapath, language := language }

/-- `TesseractAPI::init` (lines 73-123).  Locks `config` then `handle`
(poison ⇒ `MutexLockError`); computes `was_initialized`/`config_changed`;
issues `TessBaseAPIEnd` iff changed; writes the new pair into the snapshot;
calls `TessBaseAPIInit3`; on non-zero result clears `datapath`/`language` and
returns `InitError`; on success replays all stored variables. -/
def init (s : MState) (oracle : NativeOracle) (datapath language : String) :
    Outcome Unit × MState × List NEvent :=
  if s.configPoisoned = true then (.err .MutexLockError, s, [])
  else if s.handlePoisoned = true then (.err .MutexLockError, s, [])
  else
    let endEvents : List NEvent :=
      if s.config.datapath ≠ "" ∧
          (s.config.datapath ≠ datapath ∨ s.config.language ≠ language) then
        [.endE]
      else []
    let cfg1 := init_write_config s.config datapath language
    if oracle.init3Result ≠ 0 then
      (.err .InitError,
        { s with config := { cfg1 with datapath := "", language := "" } },
        endEvents ++ [.init3E datapath language false])
    else
      let r := replayVariables oracle cfg1.vars
      (r.1, { s with config := cfg1 },
        endEvents ++ .init3E datapath language true :: r.2)

/-- `TesseractAPI::set_variable` (lines 175-192): lock `config` then `handle`;
insert the pair into the snapshot first; then apply it natively. -/
def set_variable (s : MState) (oracle : NativeOracle) (name value : String) :
    Outcome Unit × MState × List NEvent :=
  if s.configPoisoned = true then (.err .MutexLockError, s, [])
  else if s.handlePoisoned = true then (.err .MutexLockError, s, [])
  else
    let cfg1 := { s.config with vars := insertVar s.config.vars name value }
    let r := set_variable_internal oracle name value
    (r.1, { s with config := cfg1 }, [r.2])

/-- `TesseractAPI::end` (lines 1021-1028): lock the handle, call
`TessBaseAPIEnd`, never touch the snapshot. -/
def end_ (s : MState) : Outcome Unit × MState × List NEvent :=
  if s.handlePoisoned = true then (.err .MutexLockError, s, [])
  else (.ok (), s, [.endE])

/-- The walk of `get_word_confidences` (lines 141-145): copy elements until
the `-1` sentinel, exclusive.  `none` models walking off the end of the
allocation when the array has no sentinel (undefined behavior in the C code). -/
def copyUntilSentinel : List Int → Option (List Int)
  | [] => none
  | x :: rest => if x = -1 then some [] else (copyUntilSentinel rest).map (x :: ·)

/-- `TesseractAPI::get_word_confidences` (lines 130-148): lock the handle,
fetch the native confidence array (null ⇒ `NullPointerError`), copy up to the
`-1` sentinel, then free the native array with one `TessDeleteIntArray`. -/
def get_word_confidences (s : MState) (oracle : NativeOracle) :
    Outcome (List Int) × List NEvent :=
  if s.handlePoisoned = true then (.err .MutexLockError, [])
  else
    match oracle.wordConfidences with
    | none => (.err .NullPointerError, [.allWordConfidencesE])
    | some arr =>
      match copyUntilSentinel arr with
      | none => (.undefinedBehavior, [.allWordConfidencesE])
      | some out => (.ok out, [.allWordConfidencesE, .deleteIntArrayE])

/-- The walk of `string_vec_to_rust` (lines 974-983): copy string cells until
the null-pointer sentinel, exclusive; `none` models a missing sentinel. -/
def copyUntilNull : List (Option String) → Option (List String)
  | [] => none
  | none :: _ => some []
  | some str :: rest => (copyUntilNull rest).map (str :: ·)

/-- `TesseractAPI::string_vec_to_rust` (lines 969-986): null vector pointer ⇒
`NullPointerError`; otherwise copy up to the null sentinel and free the
native array with one `TessDeleteTextArray` after the copy. -/
def string_vec_to_rust :
    Option (List (Option String)) → Outcome (List String) × List NEvent
  | none => (.err .NullPointerError, [])
  | some cells =>
    match copyUntilNull cells with
    | none => (.undefinedBehavior, [])
    | some out => (.ok out, [.deleteTextArrayE])

/-- `TesseractAPI::get_loaded_languages` (lines 937-944): lock the handle,
fetch the native string vector, convert via `string_vec_to_rust`. -/
def get_loaded_languages (s : MState) (oracle : NativeOracle) :
    Outcome (List String) × List NEvent :=
  if s.handlePoisoned = true then (.err .MutexLockError, [])
  else
    let r := string_vec_to_rust oracle.loadedLanguages
    (r.1, .getLoadedLanguagesE :: r.2)

/-- `TesseractAPI::get_init_languages_as_string` (lines 915-930): lock the
handle; a null native pointer is mapped to `Ok` of the empty string (the code
comments that this represents "no languages loaded"), not to an error. -/
def get_init_languages_as_string (s : MState) (oracle : NativeOracle) :
    Outcome String × List NEvent :=
  if s.handlePoisoned = true then (.err .MutexLockError, [])
  else
    match oracle.initLanguages with
    | none => (.ok "", [.getInitLanguagesE])
    | some str => (.ok str, [.getInitLanguagesE])

/-- `TesseractAPI::get_unichar` (lines 1418-1427): this operation locks the
handle with `.lock().unwrap()`, so a poisoned handle lock panics instead of
returning `MutexLockError`; a null native pointer is `NullPointerError`. -/
def get_unichar (s : MState) (oracle : NativeOracle) (unichar_id : Int) :
    Outcome String × List NEvent :=
  if s.handlePoisoned = true then (.panicked, [])
  else
    match oracle.unichar unichar_id with
    | none => (.err .NullPointerError, [.getUnicharE unichar_id])
    | some c => (.ok c, [.getUnicharE unichar_id])

/-- `TesseractAPI::init_1` (lines 1078-1102): lock the handle only, call
`TessBaseAPIInit1`, map non-zero to `InitError`; the snapshot is untouched. -/
def init_1 (s : MState) (oracle : NativeOracle)
    (datapath language : String) (oem : Int) (configs : List String) :
    Outcome Unit × MState × List NEvent :=
  if s.handlePoisoned = true then (.err .MutexLockError, s, [])
  else if oracle.init1Result ≠ 0 then
    (.err .InitError, s, [.init1E datapath language oem configs false])
  else (.ok (), s, [.init1E datapath language oem configs true])

/-- `TesseractAPI::init_2` (lines 1115-1129): lock the handle only, call
`TessBaseAPIInit2`, map non-zero to `InitError`; the snapshot is untouched. -/
def init_2 (s : MState) (oracle : NativeOracle)
    (datapath language : String) (oem : Int) :
    Outcome Unit × MState × List NEvent :=
  if s.handlePoisoned = true then (.err .MutexLockError, s, [])
  else if oracle.init2Result ≠ 0 then
    (.err .InitError, s, [.init2E datapath language oem false])
  else (.ok (), s, [.init2E datapath language oem true])

/-- `TesseractAPI::init_4` (lines 1143-1167): lock the handle only, call
`TessBaseAPIInit4`, map non-zero to `InitError`; the snapshot is untouched. -/
def init_4 (s : MState) (oracle : NativeOracle)
    (datapath language : String) (oem : Int) (configs : List String) :
    Outcome Unit × MState × List NEvent :=
  if s.handlePoisoned = true then (.err .MutexLockError, s, [])
  else if oracle.init4Result ≠ 0 then
    (.err .InitError, s, [.init4E datapath language oem configs false])
  else (.ok (), s, [.init4E datapath language oem configs true])

/-- `TesseractAPI::init_5` (lines 1182-1213): lock the handle only, call
`TessBaseAPIInit5` on an in-memory data blob, map non-zero to `InitError`;
the snapshot is untouched. -/
def init_5 (s : MState) (oracle : NativeOracle)
    (dataLen : Nat) (language : String) (oem : Int) (configs : List String) :
    Outcome Unit × MState × List NEvent :=
  if s.handlePoisoned = true then (.err .MutexLockError, s, [])
  else if oracle.init5Result ≠ 0 then
    (.err .InitError, s, [.init5E dataLen language oem configs false])
  else (.ok (), s, [.init5E dataLen language oem configs true])

/-- Two's-complement wraparound of a mathematical integer into `i32`, the
semantics of Rust release-mode `i32` multiplication. -/
def wrap32 (x : Int) : Int := (x + 2 ^ 31) % 2 ^ 32 - 2 ^ 31

/-- The Rust cast `x as usize` for `x : i32` on a 64-bit target: sign-extend
to 64 bits and reinterpret as unsigned. -/
def usizeOfI32 (x : Int) : Int := if x < 0 then x + 2 ^ 64 else x

/-- `TesseractAPI::set_image` (lines 1224-1267): four local validations run
before the handle lock is taken, in this order — dimensions, bytes-per-pixel,
bytes-per-line against `width * bytes_per_pixel`, buffer length against
`(height * bytes_per_line) as usize` — with the two products computed in
wrapping `i32` arithmetic; only when all pass (and the lock is healthy) is
the native `TessBaseAPISetImage` call issued. -/
def set_image (s : MState) (imageDataLen : Nat)
    (width height bytes_per_pixel bytes_per_line : Int) :
    Outcome Unit × List NEvent :=
  if width ≤ 0 ∨ height ≤ 0 then (.err .InvalidDimensions, [])
  else if bytes_per_pixel ≤ 0 then (.err .InvalidBytesPerPixel, [])
  else if bytes_per_line < wrap32 (width * bytes_per_pixel) then
    (.err .InvalidBytesPerLine, [])
  else if (imageDataLen : Int) < usizeOfI32 (wrap32 (height * bytes_per_line)) then
    (.err .InvalidImageData, [])
  else if s.handlePoisoned = true then (.err .MutexLockError, [])
  else (.ok (), [.setImageE width height bytes_per_pixel bytes_per_line])

/-- Uniform payload type so that all modelled public operations can be run
through one dispatcher. -/
inductive Payload
  | unit
  | i32s (xs : List Int)
  | strs (xs : List String)
  | str (x : String)
  deriving DecidableEq, Repr

/-- The modelled public operations of `TesseractAPI`, with their arguments. -/
inductive MOp
  | initOp (datapath language : String)
  | setVariableOp (name value : String)
  | init1Op (datapath language : String) (oem : Int) (configs : List String)
  | init2Op (datapath language : String) (oem : Int)
  | init4Op (datapath language : String) (oem : Int) (configs : List String)
  | init5Op (dataLen : Nat) (language : String) (oem : Int) (configs : List String)
  | endOp
  | setImageOp (imageDataLen : Nat) (width height bytesPerPixel bytesPerLine : Int)
  | getWordConfidencesOp
  | getInitLanguagesOp
  | getLoadedLanguagesOp
  | getUnicharOp (id : Int)
  deriving DecidableEq, Repr

/-- Run one public operation: outcome, post-state, issued native calls. -/
def step (s : MState) (oracle : NativeOracle) : MOp → Outcome Payload × MState × List NEvent
  | .initOp p l =>
    ((init s oracle p l).1.map fun _ => .unit,
      (init s oracle p l).2.1, (init s oracle p l).2.2)
  | .setVariableOp n v =>
    ((set_variable s oracle n v).1.map fun _ => .unit,
      (set_variable s oracle n v).2.1, (set_variable s oracle n v).2.2)
  | .init1Op p l oem cfgs =>
    ((init_1 s oracle p l oem cfgs).1.map fun _ => .unit,
      (init_1 s oracle p l oem cfgs).2.1, (init_1 s oracle p l oem cfgs).2.2)
  | .init2Op p l oem =>
    ((init_2 s oracle p l oem).1.map fun _ => .unit,
      (init_2 s oracle p l oem).2.1, (init_2 s oracle p l oem).2.2)
  | .init4Op p l oem cfgs =>
    ((init_4 s oracle p l oem cfgs).1.map fun _ => .unit,
      (init_4 s oracle p l oem cfgs).2.1, (init_4 s oracle p l oem cfgs).2.2)
  | .init5Op len l oem cfgs =>
    ((init_5 s oracle len l oem cfgs).1.map fun _ => .unit,
      (init_5 s oracle len l oem cfgs).2.1, (init_5 s oracle len l oem cfgs).2.2)
  | .endOp => ((end_ s).1.map fun _ => .unit, (end_ s).2.1, (end_ s).2.2)
  | .setImageOp len w h bpp bpl =>
    ((set_image s len w h bpp bpl).1.map fun _ => .unit, s,
      (set_image s len w h bpp bpl).2)
  | .getWordConfidencesOp =>
    ((get_word_confidences s oracle).1.map .i32s, s, (get_word_confidences s oracle).2)
  | .getInitLanguagesOp =>
    ((get_init_languages_as_string s oracle).1.map .str, s,
      (get_init_languages_as_string s oracle).2)
  | .getLoadedLanguagesOp =>
    ((get_loaded_languages s oracle).1.map .strs, s, (get_loaded_languages s oracle).2)
  | .getUnicharOp id =>
    ((get_unichar s oracle id).1.map .str, s, (get_unichar s oracle id).2)

/-- The four alternate initializers, which bypass the snapshot machinery. -/
def MOp.isAlternateInit : MOp → Bool
  | .init1Op .. => true
  | .init2Op .. => true
  | .init4Op .. => true
  | .init5Op .. => true
  | _ => false

/-- The two operations whose Rust bodies write to `self.config`. -/
def MOp.isConfigMutator : MOp → Bool
  | .initOp .. => true
  | .setVariableOp .. => true
  | _ => false

/-- Operations that acquire the configuration lock (always before the handle
lock, per the fixed ordering in the source). -/
def MOp.usesConfigLock : MOp → Bool
  | .initOp .. => true
  | .setVariableOp .. => true
  | _ => false

/-- Whether the operation is `get_unichar`, the one operation that unwraps
its lock instead of mapping poison to `MutexLockError`. -/
def MOp.isGetUnichar : MOp → Bool
  | .getUnicharOp _ => true
  | _ => false

/-- Arguments that pass `set_image`'s pre-lock validation (trivially true for
every other operation), phrased exactly as the negations of the source's
checks. -/
def MOp.validArgs : MOp → Prop
  | .setImageOp len w h bpp bpl =>
    0 < w ∧ 0 < h ∧ 0 < bpp ∧ wrap32 (w * bpp) ≤ bpl ∧
      usizeOfI32 (wrap32 (h * bpl)) ≤ (len : Int)
  | _ => True

instance : DecidablePred MOp.validArgs := by
  intro op
  unfold MOp.validArgs
  cases op <;> infer_instance

/-- Abstract model of the native engine session, reconstructed from the call
trace: the `(datapath, language)` of the last successful initializer call
(`none` before any, and for the blob-based `init_5` which has no datapath),
and the variables successfully applied since then (each successful
initializer resets the applied set, as documented at src/api.rs line 112). -/
structure NativeModel where
  lastInit : Option (String × String)
  applied : List (String × String)
  deriving DecidableEq, Repr

/-- Effect of one native call on the session model. -/
def NativeModel.step (m : NativeModel) : NEvent → NativeModel
  | .init3E dp lang true => { lastInit := some (dp, lang), applied := [] }
  | .init1E dp lang _ _ true => { lastInit := some (dp, lang), applied := [] }
  | .init2E dp lang _ true => { lastInit := some (dp, lang), applied := [] }
  | .init4E dp lang _ _ true => { lastInit := some (dp, lang), applied := [] }
  | .init5E _ _ _ _ true => { lastInit := none, applied := [] }
  | .setVarE n v true => { m with applied := m.applied ++ [(n, v)] }
  | _ => m

/-- The data-model invariant of the spec: a non-empty snapshot datapath means
the native session was established with exactly the stored pair, and every
stored variable has been applied to it. -/
def ConfigInvariant (cfg : TesseractConfiguration) (m : NativeModel) : Prop :=
  cfg.datapath ≠ "" →
    m.lastInit = some (cfg.datapath, cfg.language) ∧ ∀ nv ∈ cfg.vars, nv ∈ m.applied

instance (cfg : TesseractConfiguration) (m : NativeModel) :
    Decidable (ConfigInvariant cfg m) := by
  unfold ConfigInvariant
  infer_instance

/-- An oracle on which every native call succeeds. -/
def okOracle : NativeOracle where
  init3Result := 0
  init1Result := 0
  init2Result := 0
  init4Result := 0
  init5Result := 0
  setVarResult := fun _ _ => 1
  wordConfidences := some [88, 91, -1]
  initLanguages := some "eng"
  loadedLanguages := some [some "eng", none]
  unichar := fun _ => some "a"

/-- An oracle whose native initializer rejects the configuration. -/
def failInitOracle : NativeOracle := { okOracle with init3Result := 1 }

/-- An oracle on which every pointer-returning native call returns null. -/
def nullOracle : NativeOracle :=
  { okOracle with
    wordConfidences := none
    initLanguages := none
    loadedLanguages := none
    unichar := fun _ => none }

/-- A freshly constructed manager (`TesseractAPI::new`, lines 37-46): empty
snapshot, healthy locks. -/
def freshState : MState := ⟨⟨"", "", []⟩, false, false⟩

/-- A manager whose snapshot records a successful `init("p", "l")` and one
stored variable `("k", "v")`. -/
def plState : MState := ⟨⟨"p", "l", [("k", "v")]⟩, false, false⟩

/-- A session model consistent with `plState`: initialized with `("p", "l")`
and with `("k", "v")` applied. -/
def plModel : NativeModel := ⟨some ("p", "l"), [("k", "v")]⟩

/-- The strings strictly before the first null cell of a native string array. -/
def stringsBeforeNull (cells : List (Option String)) : List String :=
  (cells.takeWhile Option.isSome).filterMap id

theorem Outcome.map_isOk {α β : Type} (f : α → β) (r : Outcome α) :
    (r.map f).isOk = r.isOk := by
  cases r <;> rfl

theorem Outcome.eq_ok_of_isOk (r : Outcome Unit) (h : r.isOk = true) : r = .ok () := by
  cases r with
  | ok a => cases a; rfl
  | err e => simp [Outcome.isOk] at h
  | panicked => simp [Outcome.isOk] at h
  | undefinedBehavior => simp [Outcome.isOk] at h

theorem insertVar_self_mem (l : List (String × String)) (n v : String) :
    (n, v) ∈ insertVar l n v := by
  induction l with
  | nil => simp [insertVar]
  | cons hd tl ih =>
    obtain ⟨n0, v0⟩ := hd
    by_cases h : n0 = n <;> simp [insertVar, h, ih]

theorem mem_insertVar (l : List (String × String)) (n v : String)
    (nv : String × String) (h : nv ∈ insertVar l n v) : nv = (n, v) ∨ nv ∈ l := by
  induction l with
  | nil => simpa [insertVar] using h
  | cons hd tl ih =>
    obtain ⟨n0, v0⟩ := hd
    by_cases hn : n0 = n
    · simp only [insertVar, if_pos hn, List.mem_cons] at h
      rcases h with h | h
      · exact Or.inl h
      · exact Or.inr (List.mem_cons_of_mem _ h)
    · simp only [insertVar, if_neg hn, List.mem_cons] at h
      rcases h with h | h
      · exact Or.inr (by simp [h])
      · rcases ih h with h1 | h1
        · exact Or.inl h1
        · exact Or.inr (List.mem_cons_of_mem _ h1)

theorem replayVariables_ok_events (oracle : NativeOracle)
    (l : List (String × String)) (h : (replayVariables oracle l).1 = .ok ()) :
    (replayVariables oracle l).2 = l.map fun nv => NEvent.setVarE nv.1 nv.2 true := by
  induction l with
  | nil => rfl
  | cons hd tl ih =>
    obtain ⟨n, v⟩ := hd
    by_cases hr : oracle.setVarResult n v = 1
    · simp only [replayVariables, if_pos hr] at h ⊢
      simp [ih h]
    · simp [replayVariables, if_neg hr] at h

theorem foldl_setVar_events (l : List (String × String)) (m : NativeModel) :
    (List.foldl NativeModel.step m (l.map fun nv => NEvent.setVarE nv.1 nv.2 true))
      = ⟨m.lastInit, m.applied ++ l⟩ := by
  induction l generalizing m with
  | nil => simp
  | cons hd tl ih =>
    obtain ⟨n, v⟩ := hd
    simp only [List.map_cons, List.foldl_cons, NativeModel.step, ih]
    simp

theorem copyUntilSentinel_eq_takeWhile (arr : List Int) (h : (-1 : Int) ∈ arr) :
    copyUntilSentinel arr = some (arr.takeWhile fun x => x != -1) := by
  induction arr with
  | nil => cases h
  | cons hd tl ih =>
    by_cases hx : hd = -1
    · subst hx
      simp [copyUntilSentinel, List.takeWhile]
    · have htl : (-1 : Int) ∈ tl := by
        rcases List.mem_cons.mp h with h1 | h1
        · exact absurd h1.symm hx
        · exact h1
      have hb : (hd != -1) = true := by simpa using hx
      simp [copyUntilSentinel, hx, List.takeWhile, hb, ih htl]

theorem sentinel_not_mem_takeWhile (arr : List Int) :
    (-1 : Int) ∉ arr.takeWhile fun x => x != -1 := by
  intro h
  have := List.mem_takeWhile_imp h
  simp at this

theorem replayVariables_events_setVar (oracle : NativeOracle)
    (l : List (String × String)) :
    ∀ e ∈ (replayVariables oracle l).2, ∃ n v b, e = NEvent.setVarE n v b := by
  induction l with
  | nil => intro e he; cases he
  | cons hd tl ih =>
    obtain ⟨n, v⟩ := hd
    intro e he
    by_cases hr : oracle.setVarResult n v = 1
    · simp only [replayVariables, if_pos hr, List.mem_cons] at he
      rcases he with he | he
      · exact ⟨n, v, true, he⟩
      · exact ih e he
    · simp only [replayVariables, if_neg hr, List.mem_cons] at he
      rcases he with he | he
      · exact ⟨n, v, false, he⟩
      · cases he

theorem copyUntilNull_eq (cells : List (Option String)) (h : none ∈ cells) :
    copyUntilNull cells = some (stringsBeforeNull cells) := by
  induction cells with
  | nil => cases h
  | cons hd tl ih =>
    cases hd with
    | none => simp [copyUntilNull, stringsBeforeNull, List.takeWhile]
    | some str =>
      have htl : none ∈ tl := by
        rcases List.mem_cons.mp h with h1 | h1
        · cases h1
        · exact h1
      simp [copyUntilNull, stringsBeforeNull, List.takeWhile, ih htl]

/-- C1.  Reinit on change: if the snapshot holds a non-empty datapath and the
arguments of `init` differ from the stored pair, the native call trace starts
with `TessBaseAPIEnd` immediately followed by the native initializer call on
the new pair, and when the native initializer succeeds the snapshot's
`(datapath, language)` afterwards equals the new pair. -/
theorem C1_reinit_on_change (s : MState) (oracle : NativeOracle) (p2 l2 : String)
    (hc : s.configPoisoned = false) (hh : s.handlePoisoned = false)
    (hprev : s.config.datapath ≠ "")
    (hchange : s.config.datapath ≠ p2 ∨ s.config.language ≠ l2) :
    (∃ flag rest, (init s oracle p2 l2).2.2 =
        NEvent.endE :: NEvent.init3E p2 l2 flag :: rest) ∧
    (oracle.init3Result = 0 →
      (init s oracle p2 l2).2.1.config.datapath = p2 ∧
      (init s oracle p2 l2).2.1.config.language = l2) := by
  have hchanged : s.config.datapath ≠ "" ∧
      (s.config.datapath ≠ p2 ∨ s.config.language ≠ l2) := ⟨hprev, hchange⟩
  by_cases hres : oracle.init3Result = 0
  · constructor
    · refine ⟨true, (replayVariables oracle s.config.vars).2, ?_⟩
      simp [init, hc, hh, hchanged, hres, init_write_config]
    · intro _
      simp [init, hc, hh, hchanged, hres, init_write_config]
  · constructor
    · refine ⟨false, [], ?_⟩
      simp [init, hc, hh, hchanged, hres]
    · intro h0
      exact absurd h0 hres

/-- Witness for C1 at the concrete manager `plState` and arguments
`("q", "m")`. -/
theorem C1_reinit_on_change_witness :
    plState.configPoisoned = false ∧ plState.handlePoisoned = false ∧
    plState.config.datapath ≠ "" ∧
    (plState.config.datapath ≠ "q" ∨ plState.config.language ≠ "m") ∧
    ((∃ flag rest, (init plState okOracle "q" "m").2.2 =
        NEvent.endE :: NEvent.init3E "q" "m" flag :: rest) ∧
      (okOracle.init3Result = 0 →
        (init plState okOracle "q" "m").2.1.config.datapath = "q" ∧
        (init plState okOracle "q" "m").2.1.config.language = "m")) :=
  ⟨rfl, rfl, by decide, Or.inl (by decide),
    C1_reinit_on_change plState okOracle "q" "m" rfl rfl (by decide)
      (Or.inl (by decide))⟩

/-- C2 counterexample: at the concrete manager `plState` (snapshot
`("p", "l")` with stored variable `("k", "v")`), the redundant call
`init("p", "l")` is claimed to perform no native call at all, but the call
trace is non-empty: it invokes the native initializer and re-applies the
stored variable. -/
theorem C2_counterexample :
    (init plState okOracle "p" "l").2.2 ≠ [] ∧
    NEvent.init3E "p" "l" true ∈ (init plState okOracle "p" "l").2.2 ∧
    NEvent.setVarE "k" "v" true ∈ (init plState okOracle "p" "l").2.2 := by
  decide

/-- C2 (amended).  A second `init` with arguments identical to the non-empty
snapshot does not re-trigger the native `end` call, but it does invoke the
native initializer again; on success the snapshot is left equal to itself and
every stored variable is re-applied natively. -/
theorem C2_redundant_init (s : MState) (oracle : NativeOracle)
    (hc : s.configPoisoned = false) (hh : s.handlePoisoned = false)
    (hprev : s.config.datapath ≠ "") :
    NEvent.endE ∉ (init s oracle s.config.datapath s.config.language).2.2 ∧
    (∃ flag rest, (init s oracle s.config.datapath s.config.language).2.2 =
        NEvent.init3E s.config.datapath s.config.language flag :: rest) ∧
    ((init s oracle s.config.datapath s.config.language).1 = .ok () →
      (init s oracle s.config.datapath s.config.language).2.1.config = s.config ∧
      ∀ nv ∈ s.config.vars, NEvent.setVarE nv.1 nv.2 true ∈
        (init s oracle s.config.datapath s.config.language).2.2) := by
  have hunch : ¬(s.config.datapath ≠ "" ∧
      (s.config.datapath ≠ s.config.datapath ∨
        s.config.language ≠ s.config.language)) := by simp
  by_cases hres : oracle.init3Result = 0
  · have htr : (init s oracle s.config.datapath s.config.language).2.2 =
        NEvent.init3E s.config.datapath s.config.language true ::
          (replayVariables oracle s.config.vars).2 := by
      simp [init, hc, hh, hunch, hres, init_write_config]
    refine ⟨?_, ⟨true, (replayVariables oracle s.config.vars).2, htr⟩, ?_⟩
    · rw [htr]
      intro he
      rcases List.mem_cons.mp he with h1 | h1
      · cases h1
      · obtain ⟨n, v, b, hb⟩ :=
          replayVariables_events_setVar oracle s.config.vars _ h1
        cases hb
    · intro hok
      have hrep : (replayVariables oracle s.config.vars).1 = .ok () := by
        simpa [init, hc, hh, hunch, hres, init_write_config] using hok
      constructor
      · simp [init, hc, hh, hunch, hres, init_write_config]
      · intro nv hnv
        rw [htr, replayVariables_ok_events oracle s.config.vars hrep]
        exact List.mem_cons_of_mem _ (List.mem_map_of_mem _ hnv)
  · have htr : (init s oracle s.config.datapath s.config.language).2.2 =
        [NEvent.init3E s.config.datapath s.config.language false] := by
      simp [init, hc, hh, hunch, hres, init_write_config]
    refine ⟨?_, ⟨false, [], htr⟩, ?_⟩
    · rw [htr]
      intro he
      rcases List.mem_cons.mp he with h1 | h1
      · cases h1
      · cases h1
    · intro hok
      simp [init, hc, hh, hunch, hres] at hok

/-- Witness for C2 (amended) at the concrete manager `plState`. -/
theorem C2_redundant_init_witness :
    plState.configPoisoned = false ∧ plState.handlePoisoned = false ∧
    plState.config.datapath ≠ "" ∧
    (NEvent.endE ∉ (init plState okOracle plState.config.datapath
        plState.config.language).2.2 ∧
      (∃ flag rest, (init plState okOracle plState.config.datapath
          plState.config.language).2.2 =
        NEvent.init3E plState.config.datapath plState.config.language
          flag :: rest) ∧
      ((init plState okOracle plState.config.datapath
          plState.config.language).1 = .ok () →
        (init plState okOracle plState.config.datapath
          plState.config.language).2.1.config = plState.config ∧
        ∀ nv ∈ plState.config.vars, NEvent.setVarE nv.1 nv.2 true ∈
          (init plState okOracle plState.config.datapath
            plState.config.language).2.2)) :=
  ⟨rfl, rfl, by decide, C2_redundant_init plState okOracle rfl rfl (by decide)⟩

theorem init_ok_spec (s : MState) (oracle : NativeOracle) (p l : String)
    (hc : s.configPoisoned = false) (hh : s.handlePoisoned = false)
    (hok : (init s oracle p l).1 = .ok ()) :
    (init s oracle p l).2.1.config = ⟨p, l, s.config.vars⟩ ∧
    ∃ pre, (init s oracle p l).2.2 =
      pre ++ NEvent.init3E p l true ::
        (s.config.vars.map fun nv => NEvent.setVarE nv.1 nv.2 true) := by
  by_cases hres : oracle.init3Result = 0
  · have hrep : (replayVariables oracle s.config.vars).1 = .ok () := by
      simpa [init, hc, hh, hres, init_write_config] using hok
    refine ⟨?_, ⟨if s.config.datapath ≠ "" ∧
        (s.config.datapath ≠ p ∨ s.config.language ≠ l) then [.endE] else [], ?_⟩⟩
    · simp [init, hc, hh, hres, init_write_config]
    · simp [init, hc, hh, hres, init_write_config,
        replayVariables_ok_events oracle s.config.vars hrep]
  · simp [init, hc, hh, hres] at hok

/-- C3.  Failed init clears state: whenever the native initializer reports a
non-zero status, `init` returns `InitError` and clears both snapshot fields
to the empty-string sentinel (for every prior snapshot, including one from an
earlier successful init); the configuration handed to the native phase
already carries the new arguments, and the initializer call itself receives
exactly those arguments. -/
theorem C3_failed_init_clears (s : MState) (oracle : NativeOracle) (p l : String)
    (hc : s.configPoisoned = false) (hh : s.handlePoisoned = false)
    (hfail : oracle.init3Result ≠ 0) :
    (init s oracle p l).1 = .err .InitError ∧
    (init s oracle p l).2.1.config.datapath = "" ∧
    (init s oracle p l).2.1.config.language = "" ∧
    init_write_config s.config p l =
      { datapath := p, language := l, vars := s.config.vars } ∧
    NEvent.init3E p l false ∈ (init s oracle p l).2.2 := by
  refine ⟨?_, ?_, ?_, rfl, ?_⟩ <;>
    simp [init, hc, hh, hfail, init_write_config]

/-- Witness for C3 at the concrete manager `plState` (whose snapshot records
an earlier successful init with other arguments) under `failInitOracle`. -/
theorem C3_failed_init_clears_witness :
    plState.configPoisoned = false ∧ plState.handlePoisoned = false ∧
    failInitOracle.init3Result ≠ 0 ∧
    ((init plState failInitOracle "q" "m").1 = .err .InitError ∧
      (init plState failInitOracle "q" "m").2.1.config.datapath = "" ∧
      (init plState failInitOracle "q" "m").2.1.config.language = "" ∧
      init_write_config plState.config "q" "m" =
        { datapath := "q", language := "m", vars := plState.config.vars } ∧
      NEvent.init3E "q" "m" false ∈ (init plState failInitOracle "q" "m").2.2) :=
  ⟨rfl, rfl, by decide,
    C3_failed_init_clears plState failInitOracle "q" "m" rfl rfl (by decide)⟩

/-- C4.  Variable replay: after a successful `set_variable(name, value)`
followed by a successful `init(p, l)`, the pair `(name, value)` is in the
snapshot's variables map, and the `init` call trace splits at the successful
native initializer call, after which every pair of the variables map is
re-applied by a successful native set-variable call; every replay call in
that suffix succeeded. -/
theorem C4_variable_replay (s : MState) (or1 or2 : NativeOracle)
    (name value p l : String)
    (hc : s.configPoisoned = false) (hh : s.handlePoisoned = false)
    (hsv : (set_variable s or1 name value).1 = .ok ())
    (hinit : (init (set_variable s or1 name value).2.1 or2 p l).1 = .ok ()) :
    (name, value) ∈
      (init (set_variable s or1 name value).2.1 or2 p l).2.1.config.vars ∧
    ∃ pre rest, (init (set_variable s or1 name value).2.1 or2 p l).2.2 =
        pre ++ NEvent.init3E p l true :: rest ∧
      (∀ nv ∈ (init (set_variable s or1 name value).2.1 or2 p l).2.1.config.vars,
        NEvent.setVarE nv.1 nv.2 true ∈ rest) ∧
      ∀ n v b, NEvent.setVarE n v b ∈ rest → b = true := by
  have hvars : (set_variable s or1 name value).2.1.config.vars
      = insertVar s.config.vars name value := by
    simp [set_variable, hc, hh]
  have hc1 : (set_variable s or1 name value).2.1.configPoisoned = false := by
    simp [set_variable, hc, hh]
  have hh1 : (set_variable s or1 name value).2.1.handlePoisoned = false := by
    simp [set_variable, hc, hh]
  obtain ⟨hcfg, pre, htr⟩ := init_ok_spec _ or2 p l hc1 hh1 hinit
  have hmemvars : (name, value) ∈
      (init (set_variable s or1 name value).2.1 or2 p l).2.1.config.vars := by
    rw [hcfg]
    show (name, value) ∈ (set_variable s or1 name value).2.1.config.vars
    rw [hvars]
    exact insertVar_self_mem _ name value
  refine ⟨hmemvars,
    ⟨pre, (set_variable s or1 name value).2.1.config.vars.map
      fun nv => NEvent.setVarE nv.1 nv.2 true, htr, ?_, ?_⟩⟩
  · intro nv hnv
    rw [hcfg] at hnv
    exact List.mem_map_of_mem _ hnv
  · intro n v b hb
    obtain ⟨nv, _, heq⟩ := List.mem_map.mp hb
    cases heq
    rfl

/-- Witness for C4: `set_variable("k", "v")` then `init("p", "l")` on a fresh
manager, both successful under `okOracle`. -/
theorem C4_variable_replay_witness :
    freshState.configPoisoned = false ∧ freshState.handlePoisoned = false ∧
    (set_variable freshState okOracle "k" "v").1 = .ok () ∧
    (init (set_variable freshState okOracle "k" "v").2.1 okOracle "p" "l").1
      = .ok () ∧
    (("k", "v") ∈
      (init (set_variable freshState okOracle "k" "v").2.1 okOracle
        "p" "l").2.1.config.vars ∧
    ∃ pre rest,
      (init (set_variable freshState okOracle "k" "v").2.1 okOracle
          "p" "l").2.2 = pre ++ NEvent.init3E "p" "l" true :: rest ∧
      (∀ nv ∈ (init (set_variable freshState okOracle "k" "v").2.1 okOracle
          "p" "l").2.1.config.vars,
        NEvent.setVarE nv.1 nv.2 true ∈ rest) ∧
      ∀ n v b, NEvent.setVarE n v b ∈ rest → b = true) :=
  ⟨rfl, rfl, by decide, by decide,
    C4_variable_replay freshState okOracle okOracle "k" "v" "p" "l" rfl rfl
      (by decide) (by decide)⟩

/-- Native calls that do not affect the session model (neither initializers
nor variable applications). -/
def modelNeutral : NEvent → Bool
  | .init3E .. => false
  | .init1E .. => false
  | .init2E .. => false
  | .init4E .. => false
  | .init5E .. => false
  | .setVarE .. => false
  | _ => true

theorem step_of_modelNeutral (m : NativeModel) (e : NEvent)
    (h : modelNeutral e = true) : NativeModel.step m e = m := by
  cases e <;> first | rfl | (cases h)

theorem foldl_modelNeutral (tr : List NEvent) (m : NativeModel)
    (h : ∀ e ∈ tr, modelNeutral e = true) :
    List.foldl NativeModel.step m tr = m := by
  induction tr generalizing m with
  | nil => rfl
  | cons hd tl ih =>
    rw [List.foldl_cons, step_of_modelNeutral m hd (h hd (by simp))]
    exact ih m fun e he => h e (List.mem_cons_of_mem _ he)

/-- C5 counterexample: on a fresh manager, a successful `init("p", "l")`
establishes the invariant, but a following successful `init_2("q", "m", 3)`
reinitializes the native session without touching the snapshot, so the
snapshot's non-empty datapath no longer matches the native session's
initialization pair. -/
theorem C5_counterexample :
    (init freshState okOracle "p" "l").1 = .ok () ∧
    ConfigInvariant (init freshState okOracle "p" "l").2.1.config
      (List.foldl NativeModel.step ⟨none, []⟩
        (init freshState okOracle "p" "l").2.2) ∧
    (init_2 (init freshState okOracle "p" "l").2.1 okOracle "q" "m" 3).1
      = .ok () ∧
    ¬ ConfigInvariant
      (init_2 (init freshState okOracle "p" "l").2.1 okOracle
        "q" "m" 3).2.1.config
      (List.foldl NativeModel.step
        (List.foldl NativeModel.step ⟨none, []⟩
          (init freshState okOracle "p" "l").2.2)
        (init_2 (init freshState okOracle "p" "l").2.1 okOracle
          "q" "m" 3).2.2) := by
  decide

/-- C5 (amended).  Every modelled public operation other than the alternate
initializers `init_1`/`init_2`/`init_4`/`init_5` preserves the configuration
invariant whenever it returns `Ok`: a non-empty snapshot datapath implies the
native session was last initialized with exactly the stored pair and every
stored variable has been applied to it.  (The alternate initializers can
break the invariant even on success, and failing native set-variable calls
inside `init`'s replay or `set_variable` can leave a stored variable
unapplied.) -/
theorem C5_invariant_preserved (s : MState) (oracle : NativeOracle)
    (m : NativeModel) (op : MOp)
    (hInv : ConfigInvariant s.config m)
    (hAlt : op.isAlternateInit = false)
    (hOk : (step s oracle op).1.isOk = true) :
    ConfigInvariant (step s oracle op).2.1.config
      (List.foldl NativeModel.step m (step s oracle op).2.2) := by
  cases op with
  | initOp p l =>
    have hmap : (init s oracle p l).1.isOk = true := by
      simpa [step, Outcome.map_isOk] using hOk
    by_cases hc : s.configPoisoned = true
    · simp [init, hc, Outcome.isOk] at hmap
    by_cases hh : s.handlePoisoned = true
    · simp [init, hc, hh, Outcome.isOk] at hmap
    simp only [Bool.not_eq_true] at hc hh
    obtain ⟨hcfg, pre, htr⟩ :=
      init_ok_spec s oracle p l hc hh (Outcome.eq_ok_of_isOk _ hmap)
    simp only [step]
    rw [htr, hcfg, List.foldl_append, List.foldl_cons]
    rw [show NativeModel.step (List.foldl NativeModel.step m pre)
      (NEvent.init3E p l true) = ⟨some (p, l), []⟩ from rfl]
    rw [foldl_setVar_events]
    intro _
    exact ⟨rfl, by simp⟩
  | setVariableOp n v =>
    have hmap : (set_variable s oracle n v).1.isOk = true := by
      simpa [step, Outcome.map_isOk] using hOk
    by_cases hc : s.configPoisoned = true
    · simp [set_variable, hc, Outcome.isOk] at hmap
    by_cases hh : s.handlePoisoned = true
    · simp [set_variable, hc, hh, Outcome.isOk] at hmap
    simp only [Bool.not_eq_true] at hc hh
    by_cases hr : oracle.setVarResult n v = 1
    · have hst : (set_variable s oracle n v).2.1 =
          { s with config :=
            { s.config with vars := insertVar s.config.vars n v } } := by
        simp [set_variable, hc, hh]
      have htr : (set_variable s oracle n v).2.2 = [.setVarE n v true] := by
        simp [set_variable, hc, hh, set_variable_internal, hr]
      simp only [step, hst, htr]
      intro hne
      have hInv1 := hInv hne
      refine ⟨?_, ?_⟩
      · simpa [List.foldl, NativeModel.step] using hInv1.1
      · intro nv hnv
        rcases mem_insertVar _ _ _ _ hnv with h1 | h1
        · subst h1
          simp [List.foldl, NativeModel.step]
        · have := hInv1.2 nv h1
          simp [List.foldl, NativeModel.step, this]
    · simp [set_variable, hc, hh, set_variable_internal, hr, Outcome.isOk]
        at hmap
  | init1Op p l oem cfgs => simp [MOp.isAlternateInit] at hAlt
  | init2Op p l oem => simp [MOp.isAlternateInit] at hAlt
  | init4Op p l oem cfgs => simp [MOp.isAlternateInit] at hAlt
  | init5Op len l oem cfgs => simp [MOp.isAlternateInit] at hAlt
  | endOp =>
    by_cases hh : s.handlePoisoned = true
    · simpa [step, end_, hh] using hInv
    · simpa [step, end_, hh, List.foldl, NativeModel.step] using hInv
  | setImageOp len w h bpp bpl =>
    have hn : ∀ e ∈ (set_image s len w h bpp bpl).2, modelNeutral e = true := by
      unfold set_image
      split_ifs <;> simp [modelNeutral]
    simp only [step]
    rw [foldl_modelNeutral _ m hn]
    exact hInv
  | getWordConfidencesOp =>
    have hn : ∀ e ∈ (get_word_confidences s oracle).2,
        modelNeutral e = true := by
      unfold get_word_confidences
      split_ifs
      · simp
      · rcases hwc : oracle.wordConfidences with _ | arr
        · simp [modelNeutral]
        · rcases hcs : copyUntilSentinel arr with _ | out <;>
            simp [hcs, modelNeutral]
    simp only [step]
    rw [foldl_modelNeutral _ m hn]
    exact hInv
  | getInitLanguagesOp =>
    have hn : ∀ e ∈ (get_init_languages_as_string s oracle).2,
        modelNeutral e = true := by
      unfold get_init_languages_as_string
      split_ifs
      · simp
      · rcases hil : oracle.initLanguages with _ | str <;>
          simp [hil, modelNeutral]
    simp only [step]
    rw [foldl_modelNeutral _ m hn]
    exact hInv
  | getLoadedLanguagesOp =>
    have hn : ∀ e ∈ (get_loaded_languages s oracle).2,
        modelNeutral e = true := by
      unfold get_loaded_languages string_vec_to_rust
      split_ifs
      · simp
      · rcases hll : oracle.loadedLanguages with _ | cells
        · simp [modelNeutral]
        · rcases hcn : copyUntilNull cells with _ | out <;>
            simp [hcn, modelNeutral]
    simp only [step]
    rw [foldl_modelNeutral _ m hn]
    exact hInv
  | getUnicharOp id =>
    have hn : ∀ e ∈ (get_unichar s oracle id).2, modelNeutral e = true := by
      unfold get_unichar
      split_ifs
      · simp
      · rcases hu : oracle.unichar id with _ | c <;> simp [hu, modelNeutral]
    simp only [step]
    rw [foldl_modelNeutral _ m hn]
    exact hInv

/-- Witness for C5 (amended): `end()` on the initialized manager `plState`
with the matching session model `plModel`. -/
theorem C5_invariant_preserved_witness :
    ConfigInvariant plState.config plModel ∧
    MOp.endOp.isAlternateInit = false ∧
    (step plState okOracle .endOp).1.isOk = true ∧
    ConfigInvariant (step plState okOracle .endOp).2.1.config
      (List.foldl NativeModel.step plModel (step plState okOracle .endOp).2.2) :=
  ⟨by decide, rfl, by decide,
    C5_invariant_preserved plState okOracle plModel .endOp (by decide) rfl
      (by decide)⟩

/-- C6.  Integer overflow defeats the buffer-length validation: at
`width = 1`, `height = 65536`, `bytes_per_pixel = 1`,
`bytes_per_line = 65536` and an empty image buffer, the true required size is
`height * bytes_per_line = 2^32` bytes, but the `i32` product wraps to `0`,
so `set_image` issues the native `TessBaseAPISetImage` call on the undersized
buffer instead of returning `InvalidImageData`. -/
theorem C6_overflow_bypasses_length_check :
    set_image freshState 0 1 65536 1 65536
      = (.ok (), [NEvent.setImageE 1 65536 1 65536]) ∧
    wrap32 (65536 * 65536) = 0 ∧
    (0 : Int) < 65536 * 65536 := by
  decide

/-- C7.  Array sentinel correctness: for a non-null integer confidence array
containing the `-1` sentinel, `get_word_confidences` returns exactly the
prefix strictly before the first sentinel (never including it) and its call
trace is the fetch followed by exactly one `TessDeleteIntArray`, after the
copy; likewise a non-null string array with a null-pointer sentinel yields
the strings strictly before the first null cell and exactly one
`TessDeleteTextArray` after the copy. -/
theorem C7_sentinel_copy (s : MState) (oracle : NativeOracle)
    (arr : List Int) (cells : List (Option String))
    (hh : s.handlePoisoned = false)
    (hwc : oracle.wordConfidences = some arr) (hsent : (-1 : Int) ∈ arr)
    (hll : oracle.loadedLanguages = some cells) (hnull : none ∈ cells) :
    (get_word_confidences s oracle).1
      = .ok (arr.takeWhile fun x => x != -1) ∧
    (-1 : Int) ∉ arr.takeWhile (fun x => x != -1) ∧
    (get_word_confidences s oracle).2
      = [.allWordConfidencesE, .deleteIntArrayE] ∧
    (get_loaded_languages s oracle).1 = .ok (stringsBeforeNull cells) ∧
    (get_loaded_languages s oracle).2
      = [.getLoadedLanguagesE, .deleteTextArrayE] := by
  have h1 := copyUntilSentinel_eq_takeWhile arr hsent
  have h2 := copyUntilNull_eq cells hnull
  refine ⟨?_, sentinel_not_mem_takeWhile arr, ?_, ?_, ?_⟩ <;>
    simp [get_word_confidences, get_loaded_languages, string_vec_to_rust,
      hh, hwc, hll, h1, h2]

/-- Witness for C7 at the spec's synthetic array `[88, 91, -1]` (and string
array `[some "eng", none]`), both supplied by `okOracle`. -/
theorem C7_sentinel_copy_witness :
    freshState.handlePoisoned = false ∧
    okOracle.wordConfidences = some [88, 91, -1] ∧
    (-1 : Int) ∈ [(88 : Int), 91, -1] ∧
    okOracle.loadedLanguages = some [some "eng", none] ∧
    (none : Option String) ∈ [some "eng", none] ∧
    [(88 : Int), 91, -1].takeWhile (fun x => x != -1) = [88, 91] ∧
    ((get_word_confidences freshState okOracle).1
        = .ok ([(88 : Int), 91, -1].takeWhile fun x => x != -1) ∧
      (-1 : Int) ∉ [(88 : Int), 91, -1].takeWhile (fun x => x != -1) ∧
      (get_word_confidences freshState okOracle).2
        = [.allWordConfidencesE, .deleteIntArrayE] ∧
      (get_loaded_languages freshState okOracle).1
        = .ok (stringsBeforeNull [some "eng", none]) ∧
      (get_loaded_languages freshState okOracle).2
        = [.getLoadedLanguagesE, .deleteTextArrayE]) :=
  ⟨rfl, rfl, by decide, rfl, by decide, by decide,
    C7_sentinel_copy freshState okOracle [88, 91, -1] [some "eng", none]
      rfl rfl (by decide) rfl (by decide)⟩

/-- A manager whose handle mutex is poisoned (a holder panicked). -/
def poisonedHandleState : MState := ⟨⟨"", "", []⟩, false, true⟩

/-- A manager with both mutexes poisoned. -/
def poisonedBothState : MState := ⟨⟨"", "", []⟩, true, true⟩

/-- C8 counterexample: `get_unichar` on a manager with a poisoned handle lock
panics (the source unwraps the lock at src/api.rs line 1419) instead of
returning `MutexLockError`. -/
theorem C8_counterexample :
    (get_unichar poisonedHandleState okOracle 0).1 = .panicked ∧
    (get_unichar poisonedHandleState okOracle 0).1
      ≠ .err .MutexLockError := by
  decide

/-- C8 (amended).  Every modelled public operation except `get_unichar`
surfaces a poisoned lock it acquires as `MutexLockError`: a poisoned handle
lock yields `MutexLockError` (for `set_image`, provided the arguments pass
its pre-lock validation), and a poisoned configuration lock yields
`MutexLockError` for the operations that acquire it (`init`,
`set_variable`).  `get_unichar` instead panics on a poisoned handle lock. -/
theorem C8_poison_surfaced (s : MState) (oracle : NativeOracle) (op : MOp)
    (hg : op.isGetUnichar = false) (hv : op.validArgs) :
    (s.handlePoisoned = true → (step s oracle op).1 = .err .MutexLockError) ∧
    (s.configPoisoned = true → op.usesConfigLock = true →
      (step s oracle op).1 = .err .MutexLockError) := by
  cases op with
  | initOp p l =>
    constructor
    · intro hh
      by_cases hc : s.configPoisoned = true <;>
        simp [step, init, hc, hh, Outcome.map]
    · intro hc _
      simp [step, init, hc, Outcome.map]
  | setVariableOp n v =>
    constructor
    · intro hh
      by_cases hc : s.configPoisoned = true <;>
        simp [step, set_variable, hc, hh, Outcome.map]
    · intro hc _
      simp [step, set_variable, hc, Outcome.map]
  | init1Op p l oem cfgs =>
    refine ⟨fun hh => by simp [step, init_1, hh, Outcome.map],
      fun _ hcl => by simp [MOp.usesConfigLock] at hcl⟩
  | init2Op p l oem =>
    refine ⟨fun hh => by simp [step, init_2, hh, Outcome.map],
      fun _ hcl => by simp [MOp.usesConfigLock] at hcl⟩
  | init4Op p l oem cfgs =>
    refine ⟨fun hh => by simp [step, init_4, hh, Outcome.map],
      fun _ hcl => by simp [MOp.usesConfigLock] at hcl⟩
  | init5Op len l oem cfgs =>
    refine ⟨fun hh => by simp [step, init_5, hh, Outcome.map],
      fun _ hcl => by simp [MOp.usesConfigLock] at hcl⟩
  | endOp =>
    refine ⟨fun hh => by simp [step, end_, hh, Outcome.map],
      fun _ hcl => by simp [MOp.usesConfigLock] at hcl⟩
  | setImageOp len w h bpp bpl =>
    obtain ⟨h1, h2, h3, h4, h5⟩ := hv
    have hw : ¬(w ≤ 0) := not_le.mpr h1
    have hht : ¬(h ≤ 0) := not_le.mpr h2
    have hb : ¬(bpp ≤ 0) := not_le.mpr h3
    have hbl : ¬(bpl < wrap32 (w * bpp)) := not_lt.mpr h4
    have hlen : ¬((len : Int) < usizeOfI32 (wrap32 (h * bpl))) := not_lt.mpr h5
    refine ⟨fun hh =>
      by simp [step, set_image, hw, hht, hb, hbl, hlen, hh, Outcome.map],
      fun _ hcl => by simp [MOp.usesConfigLock] at hcl⟩
  | getWordConfidencesOp =>
    refine ⟨fun hh => by simp [step, get_word_confidences, hh, Outcome.map],
      fun _ hcl => by simp [MOp.usesConfigLock] at hcl⟩
  | getInitLanguagesOp =>
    refine ⟨fun hh =>
      by simp [step, get_init_languages_as_string, hh, Outcome.map],
      fun _ hcl => by simp [MOp.usesConfigLock] at hcl⟩
  | getLoadedLanguagesOp =>
    refine ⟨fun hh => by simp [step, get_loaded_languages, hh, Outcome.map],
      fun _ hcl => by simp [MOp.usesConfigLock] at hcl⟩
  | getUnicharOp id => simp [MOp.isGetUnichar] at hg

/-- Witness for C8 (amended): `end()` on a manager with both locks
poisoned. -/
theorem C8_poison_surfaced_witness :
    MOp.endOp.isGetUnichar = false ∧ MOp.endOp.validArgs ∧
    ((poisonedBothState.handlePoisoned = true →
        (step poisonedBothState okOracle .endOp).1 = .err .MutexLockError) ∧
      (poisonedBothState.configPoisoned = true →
        MOp.endOp.usesConfigLock = true →
        (step poisonedBothState okOracle .endOp).1 = .err .MutexLockError)) :=
  ⟨rfl, trivial, C8_poison_surfaced poisonedBothState okOracle .endOp rfl trivial⟩

/-- C9 counterexample: when the native call behind
`get_init_languages_as_string` returns a null pointer, the operation returns
`Ok` of the empty string — a silent default payload — rather than surfacing
an error value. -/
theorem C9_counterexample :
    (get_init_languages_as_string freshState nullOracle).1 = .ok "" ∧
    (get_init_languages_as_string freshState nullOracle).1
      ≠ .err .NullPointerError := by
  decide

/-- C9 (amended).  The array-fetching operations surface a null native
pointer as `NullPointerError` (`get_word_confidences`,
`get_loaded_languages` via `string_vec_to_rust`), but
`get_init_languages_as_string` deliberately maps a null native pointer to
`Ok` of the empty string instead of an error. -/
theorem C9_null_fetch_behavior (s : MState) (oracle : NativeOracle)
    (hh : s.handlePoisoned = false)
    (hwc : oracle.wordConfidences = none)
    (hll : oracle.loadedLanguages = none)
    (hil : oracle.initLanguages = none) :
    (get_word_confidences s oracle).1 = .err .NullPointerError ∧
    (get_loaded_languages s oracle).1 = .err .NullPointerError ∧
    (get_init_languages_as_string s oracle).1 = .ok "" := by
  simp [get_word_confidences, get_loaded_languages,
    get_init_languages_as_string, string_vec_to_rust, hh, hwc, hll, hil]

/-- Witness for C9 (amended) on a fresh manager under `nullOracle`. -/
theorem C9_null_fetch_behavior_witness :
    freshState.handlePoisoned = false ∧
    nullOracle.wordConfidences = none ∧
    nullOracle.loadedLanguages = none ∧
    nullOracle.initLanguages = none ∧
    ((get_word_confidences freshState nullOracle).1 = .err .NullPointerError ∧
      (get_loaded_languages freshState nullOracle).1 = .err .NullPointerError ∧
      (get_init_languages_as_string freshState nullOracle).1 = .ok "") :=
  ⟨rfl, rfl, rfl, rfl,
    C9_null_fetch_behavior freshState nullOracle rfl rfl rfl rfl⟩

/-- C10.  The alternate initializers `init_1`, `init_2`, `init_4`, `init_5`
leave the configuration snapshot completely unchanged on every path (success,
failure, poisoned lock), never issue the native `end` call, and never apply
any stored variable; more generally, every modelled operation other than
`init` and `set_variable` leaves the snapshot unchanged. -/
theorem C10_alternate_inits_frame (s : MState) (oracle : NativeOracle)
    (op : MOp) (h : op.isConfigMutator = false) :
    (step s oracle op).2.1.config = s.config ∧
    (op.isAlternateInit = true →
      NEvent.endE ∉ (step s oracle op).2.2 ∧
      ∀ n v b, NEvent.setVarE n v b ∉ (step s oracle op).2.2) := by
  cases op with
  | initOp p l => simp [MOp.isConfigMutator] at h
  | setVariableOp n v => simp [MOp.isConfigMutator] at h
  | init1Op p l oem cfgs =>
    refine ⟨?_, fun _ => ⟨?_, ?_⟩⟩ <;>
      · simp only [step]
        unfold init_1
        split_ifs <;> simp
  | init2Op p l oem =>
    refine ⟨?_, fun _ => ⟨?_, ?_⟩⟩ <;>
      · simp only [step]
        unfold init_2
        split_ifs <;> simp
  | init4Op p l oem cfgs =>
    refine ⟨?_, fun _ => ⟨?_, ?_⟩⟩ <;>
      · simp only [step]
        unfold init_4
        split_ifs <;> simp
  | init5Op len l oem cfgs =>
    refine ⟨?_, fun _ => ⟨?_, ?_⟩⟩ <;>
      · simp only [step]
        unfold init_5
        split_ifs <;> simp
  | endOp =>
    refine ⟨?_, fun hA => by simp [MOp.isAlternateInit] at hA⟩
    simp only [step]
    unfold end_
    split_ifs <;> rfl
  | setImageOp len w h bpp bpl =>
    exact ⟨rfl, fun hA => by simp [MOp.isAlternateInit] at hA⟩
  | getWordConfidencesOp =>
    exact ⟨rfl, fun hA => by simp [MOp.isAlternateInit] at hA⟩
  | getInitLanguagesOp =>
    exact ⟨rfl, fun hA => by simp [MOp.isAlternateInit] at hA⟩
  | getLoadedLanguagesOp =>
    exact ⟨rfl, fun hA => by simp [MOp.isAlternateInit] at hA⟩
  | getUnicharOp id =>
    exact ⟨rfl, fun hA => by simp [MOp.isAlternateInit] at hA⟩

/-- Witness for C10: `init_2("q", "m", 3)` on the initialized manager
`plState`. -/
theorem C10_alternate_inits_frame_witness :
    (MOp.init2Op "q" "m" 3).isConfigMutator = false ∧
    ((step plState okOracle (.init2Op "q" "m" 3)).2.1.config
        = plState.config ∧
      ((MOp.init2Op "q" "m" 3).isAlternateInit = true →
        NEvent.endE ∉ (step plState okOracle (.init2Op "q" "m" 3)).2.2 ∧
        ∀ n v b, NEvent.setVarE n v b ∉
          (step plState okOracle (.init2Op "q" "m" 3)).2.2)) :=
  ⟨rfl, C10_alternate_inits_frame plState okOracle _ rfl⟩

end TesseractRs
